import Mathlib

/-!
# Text-mode display driver (`win32ss/drivers/displays/textddi/enable.c`)

A shallow embedding of the character-cell compositor of the ReactOS text-mode
GDI display driver: the pixel-to-cell scaling, the cell update loop of
`DrvBitBlt`, the frame-buffer writer `TextRefreshScreen`, the pointer entry
points, `DrvTextOut` and the mode enumeration `DrvGetModes`.

Conventions of the embedding

* A `LONG` is a mathematical integer; every `LONG` multiplication and addition
  of the source goes through `LONG_wrap` (two's-complement wrap to 32 bits) and
  every `LONG` division is truncation toward zero (`Int.tdiv`).
* A `UCHAR` is a natural number; a store into a `UCHAR` reduces modulo 256.
  A `ULONG` or `DWORD` result reduces modulo `2^32` (`DWORD_wrap`).
* Memory reached through a pointer (`FrameBuffer`, `pvScan0`) is a function
  from the byte offset relative to that pointer to the byte stored there.
* An optional pointer argument is an `Option`; dereferencing `NULL` is a fault
  and a faulting run has result `none`.
* The driver serves one display: the `dhpdev` of every device surface
  designates the one `PDEV` that is threaded through the entry points.
-/

namespace TextDdi

/-! ## Constants and machine arithmetic -/

/-- Width of a character cell in fake pixels (`#define CHAR_WIDTH 9`). -/
abbrev CHAR_WIDTH : Nat := 9

/-- Height of a character cell in fake pixels (`#define CHAR_HEIGHT 16`). -/
abbrev CHAR_HEIGHT : Nat := 16

/-- Number of text columns (`#define REAL_SCREEN_WIDTH 80`). -/
abbrev REAL_SCREEN_WIDTH : Nat := 80

/-- Number of text rows (`#define REAL_SCREEN_HEIGHT 25`). -/
abbrev REAL_SCREEN_HEIGHT : Nat := 25

/-- Width of the fake pixel surface, `REAL_SCREEN_WIDTH * CHAR_WIDTH`. -/
abbrev FAKE_SCREEN_WIDTH : Nat := REAL_SCREEN_WIDTH * CHAR_WIDTH

/-- Height of the fake pixel surface, `REAL_SCREEN_HEIGHT * CHAR_HEIGHT`. -/
abbrev FAKE_SCREEN_HEIGHT : Nat := REAL_SCREEN_HEIGHT * CHAR_HEIGHT

/-- The macro `ROP3_TO_ROP4(Rop3)`:
`((((Rop3) >> 8) & 0xff00) | (((Rop3) >> 16) & 0x00ff))`. -/
def ROP3_TO_ROP4 (Rop3 : Nat) : Nat :=
  ((Rop3 >>> 8) &&& 0xff00) ||| ((Rop3 >>> 16) &&& 0x00ff)

/-- The ternary raster operation `PATCOPY` of `wingdi.h`. -/
def PATCOPY : Nat := 0x00F00021

/-- The ternary raster operation `SRCCOPY` of `wingdi.h`. -/
def SRCCOPY : Nat := 0x00CC0020

/-- Surface type `STYPE_DEVICE` of `winddi.h`. -/
def STYPE_DEVICE : Nat := 1

/-- Surface type `STYPE_BITMAP` of `winddi.h`. -/
def STYPE_BITMAP : Nat := 0

/-- Return code `SPS_ACCEPT_NOEXCLUDE` of `winddi.h`. -/
def SPS_ACCEPT_NOEXCLUDE : Nat := 2

/-- The value a mathematical integer has once stored in a 32-bit signed `LONG`. -/
def LONG_wrap (n : Int) : Int := (n + 2147483648) % 4294967296 - 2147483648

/-- Product of two `LONG` values, as a `LONG`. -/
def LONG_mul (a b : Int) : Int := LONG_wrap (a * b)

/-- Sum of two `LONG` values, as a `LONG`. -/
def LONG_add (a b : Int) : Int := LONG_wrap (a + b)

/-- Quotient of two `LONG` values: C division truncates toward zero. -/
def LONG_div (a b : Int) : Int := Int.tdiv a b

/-- The value a natural number has once stored in a `UCHAR`. -/
def UCHAR_of (n : Nat) : Nat := n % 256

/-- Column of a fake pixel abscissa:
`(fakeX * REAL_SCREEN_WIDTH) / FAKE_SCREEN_WIDTH`, the expression used by
`DrvBitBlt` (line 822) and `TextRefreshScreen` (line 92). -/
def scaleX (fakeX : Int) : Int :=
  LONG_div (LONG_mul fakeX (REAL_SCREEN_WIDTH : Nat)) (FAKE_SCREEN_WIDTH : Nat)

/-- Row of a fake pixel ordinate:
`(fakeY * REAL_SCREEN_HEIGHT) / FAKE_SCREEN_HEIGHT`, the expression used by
`DrvBitBlt` (line 823) and `TextRefreshScreen` (line 93). -/
def scaleY (fakeY : Int) : Int :=
  LONG_div (LONG_mul fakeY (REAL_SCREEN_HEIGHT : Nat)) (FAKE_SCREEN_HEIGHT : Nat)

/-- The bounds test of `DrvBitBlt` (line 824):
`x >= 0 && y >= 0 && x < REAL_SCREEN_WIDTH && y < REAL_SCREEN_HEIGHT`. -/
def inGrid (x y : Int) : Prop :=
  0 ≤ x ∧ 0 ≤ y ∧ x < (REAL_SCREEN_WIDTH : Nat) ∧ y < (REAL_SCREEN_HEIGHT : Nat)

instance (x y : Int) : Decidable (inGrid x y) := by
  unfold inGrid; infer_instance

/-! ## Data model -/

/-- One character cell (`struct tagCELL`). -/
structure CELL where
  Char : Nat
  Attribute : Nat
deriving DecidableEq, Repr

/-- The array `CELL charShadow[REAL_SCREEN_HEIGHT][REAL_SCREEN_WIDTH]`,
indexed row first. -/
abbrev Grid : Type := Fin REAL_SCREEN_HEIGHT → Fin REAL_SCREEN_WIDTH → CELL

/-- The fields of `CURSOR` (declared in `cursor.h`) that `enable.c` reads. -/
structure CURSOR where
  Visible : Bool
  x : Int
  y : Int
deriving DecidableEq, Repr

/-- Modelled from the spec: `CURSOR_vInit` of `cursor.h`, which is not part of
the sources at hand. The cursor is created hidden, at the origin. -/
def CURSOR_vInit : CURSOR := ⟨false, 0, 0⟩

/-- Modelled from the spec: `CURSOR_SetPosition` of `cursor.h`, which is not
part of the sources at hand. It updates the position without changing the
visibility. -/
def CURSOR_SetPosition (cur : CURSOR) (x y : Int) : CURSOR :=
  ⟨cur.Visible, x, y⟩

/-- Modelled from the spec: `CURSOR_SetVisible` of `cursor.h`, which is not
part of the sources at hand. It sets the visibility and keeps the position. -/
def CURSOR_SetVisible (cur : CURSOR) (bVisible : Bool) : CURSOR :=
  ⟨bVisible, cur.x, cur.y⟩

/-- Memory seen through a byte pointer: offset from the pointer to byte. -/
abbrev Memory : Type := Int → Nat

/-- The fields of `SURFOBJ` that `DrvBitBlt` reads. `pvScan0` is `none` for a
null pointer. -/
structure SURFOBJ where
  iType : Nat
  lDelta : Int
  pvScan0 : Option Memory

/-- A point (`POINTL`). -/
structure POINTL where
  x : Int
  y : Int
deriving DecidableEq, Repr

/-- A rectangle (`RECTL`), exclusive of its right and bottom edges. -/
structure RECTL where
  left : Int
  top : Int
  right : Int
  bottom : Int
deriving DecidableEq, Repr

/-- The field of `BRUSHOBJ` that `DrvBitBlt` reads. -/
structure BRUSHOBJ where
  iSolidColor : Nat
deriving DecidableEq, Repr

/-- The part of `struct tagPDEV` that the compositor uses. -/
structure PDEV where
  psoShadow : SURFOBJ
  charShadow : Grid
  cur : CURSOR
  FrameBuffer : Memory

/-! ## Frame buffer writer -/

/-- Size in bytes of one cell, `sizeof(CELL)`. -/
abbrev sizeof_CELL : Nat := 2

/-- Size in bytes of the cell grid, `sizeof(pdev->charShadow)`. -/
abbrev sizeof_charShadow : Nat := REAL_SCREEN_HEIGHT * REAL_SCREEN_WIDTH * sizeof_CELL

/-- The byte at offset `k` of the memory image of `charShadow`: rows follow
each other, cells follow each other inside a row, `Char` precedes
`Attribute` inside a cell. -/
def charShadowByte (g : Grid) (k : Int) : Nat :=
  if h : 0 ≤ k ∧ k < (sizeof_charShadow : Nat) then
    let cell := g ⟨k.toNat / sizeof_CELL / REAL_SCREEN_WIDTH, by
                    simp only [sizeof_charShadow, sizeof_CELL, REAL_SCREEN_WIDTH,
                      REAL_SCREEN_HEIGHT] at h ⊢
                    omega⟩
                  ⟨k.toNat / sizeof_CELL % REAL_SCREEN_WIDTH, by
                    simp only [REAL_SCREEN_WIDTH]
                    omega⟩
    if k.toNat % sizeof_CELL = 0 then cell.Char else cell.Attribute
  else 0

/-- The call `RtlCopyMemory(dst, src, len)`. -/
def RtlCopyMemory (dst src : Memory) (len : Nat) : Memory :=
  fun k => if 0 ≤ k ∧ k < (len : Int) then src k else dst k

/-- The store `p[i] = b` through a `PUCHAR`. -/
def storeByte (p : Memory) (i : Int) (b : Nat) : Memory :=
  fun k => if k = i then UCHAR_of b else p k

/-- The function `TextRefreshScreen` (lines 84-96). The index
`(y * REAL_SCREEN_WIDTH + x) * sizeof(CELL)` is taken as the signed byte
offset from `FrameBuffer` at which the store lands. -/
def TextRefreshScreen (pdev : PDEV) : PDEV :=
  let fb := RtlCopyMemory pdev.FrameBuffer (charShadowByte pdev.charShadow) sizeof_charShadow
  if pdev.cur.Visible then
    let x := scaleX pdev.cur.x
    let y := scaleY pdev.cur.y
    { pdev with
      FrameBuffer := storeByte fb
        (LONG_add (LONG_mul y (REAL_SCREEN_WIDTH : Nat)) x * (sizeof_CELL : Nat)) 0x40 }
  else
    { pdev with FrameBuffer := fb }

/-! ## Pointer entry points -/

/-- The function `DrvSetPointerShape` (lines 505-532). `psoMask` is `true`
when the mask pointer is not null; the arguments `psoColor`, `pxlo`, `xHot`,
`yHot`, `prcl` and `fl` are never read and are left out. The result is the
new device state and the returned code. -/
def DrvSetPointerShape (pdev : PDEV) (psoMask : Bool) (x y : Int) : PDEV × Nat :=
  let cur :=
    if psoMask then
      CURSOR_SetVisible (CURSOR_SetPosition pdev.cur x y) true
    else
      CURSOR_SetVisible pdev.cur false
  (TextRefreshScreen { pdev with cur := cur }, SPS_ACCEPT_NOEXCLUDE)

/-- The function `DrvMovePointer` (lines 535-554). The argument `prcl` is
never read and is left out. -/
def DrvMovePointer (pdev : PDEV) (x y : Int) : PDEV :=
  let cur :=
    if x ≥ 0 then
      CURSOR_SetVisible (CURSOR_SetPosition pdev.cur x y) true
    else
      CURSOR_SetVisible pdev.cur false
  TextRefreshScreen { pdev with cur := cur }

/-! ## Bit block transfer -/

/-- The values `lo, lo + 1, ..., hi - 1` taken in turn by the control variable
of `for (v = lo; v < hi; v++)`. -/
def LONG_range (lo hi : Int) : List Int :=
  (List.range (hi - lo).toNat).map (fun (i : Nat) => lo + (i : Int))

/-- The two stores of lines 839-840 into `charShadow[y][x]`. -/
def setCell (g : Grid) (y : Fin REAL_SCREEN_HEIGHT) (x : Fin REAL_SCREEN_WIDTH)
    (Color : Nat) : Grid :=
  fun r c =>
    if r = y ∧ c = x then
      { Char := UCHAR_of 0x20, Attribute := UCHAR_of ((Color <<< 4) + 7) }
    else g r c

/-- The body of the inner loop of `DrvBitBlt` (lines 822-841) for one fake
pixel. `psoSrc` is the source surface after the redirection of line 800. The
result is `none` when the body dereferences a null pointer. -/
def blitPixel (psoSrc : Option SURFOBJ) (pptlSrc : Option POINTL)
    (pbo : Option BRUSHOBJ) (rop4 : Nat) (fakeX fakeY : Int) (g : Grid) : Option Grid :=
  let x := scaleX fakeX
  let y := scaleY fakeY
  if h : inGrid x y then
    let row : Fin REAL_SCREEN_HEIGHT := ⟨y.toNat, by
      simp only [inGrid, REAL_SCREEN_HEIGHT] at h ⊢
      omega⟩
    let col : Fin REAL_SCREEN_WIDTH := ⟨x.toNat, by
      simp only [inGrid, REAL_SCREEN_WIDTH] at h ⊢
      omega⟩
    if rop4 = ROP3_TO_ROP4 PATCOPY then
      match pbo with
      | none => none
      | some b => some (setCell g row col (UCHAR_of b.iSolidColor))
    else if rop4 = ROP3_TO_ROP4 SRCCOPY then
      some g
    else
      match pptlSrc, psoSrc with
      | some ptl, some so =>
        match so.pvScan0 with
        | none => none
        | some bits =>
          let idx := LONG_add (LONG_add (LONG_mul (LONG_add ptl.y fakeY) so.lDelta) ptl.x) fakeX
          some (setCell g row col (UCHAR_of (bits idx) &&& 0x7))
      | _, _ => some g
  else
    some g

/-- The inner loop of `DrvBitBlt` (line 820) for one column of fake pixels. -/
def blitColumn (psoSrc : Option SURFOBJ) (pptlSrc : Option POINTL)
    (pbo : Option BRUSHOBJ) (rop4 : Nat) (prclTrg : RECTL) (fakeX : Int) (g : Grid) :
    Option Grid :=
  (LONG_range prclTrg.top prclTrg.bottom).foldlM
    (fun acc fakeY => blitPixel psoSrc pptlSrc pbo rop4 fakeX fakeY acc) g

/-- The outer loop of `DrvBitBlt` (line 818): the update of the cell grid. -/
def blitCells (psoSrc : Option SURFOBJ) (pptlSrc : Option POINTL)
    (pbo : Option BRUSHOBJ) (rop4 : Nat) (prclTrg : RECTL) (g : Grid) : Option Grid :=
  (LONG_range prclTrg.left prclTrg.right).foldlM
    (fun acc fakeX => blitColumn psoSrc pptlSrc pbo rop4 prclTrg fakeX acc) g

/-- The function `DrvBitBlt` (lines 773-849). The arguments `psoMask`, `pco`,
`pxlo`, `pptlMask` and `pptlBrush` are never read and are left out. The
result is the new device state and the returned `BOOL`, or `none` when the
run dereferences a null pointer. -/
def DrvBitBlt (pdev : PDEV) (psoTrg : SURFOBJ) (psoSrc : Option SURFOBJ)
    (prclTrg : RECTL) (pptlSrc : Option POINTL) (pbo : Option BRUSHOBJ) (rop4 : Nat) :
    Option (PDEV × Bool) :=
  let bNeedUpdate : Bool := decide (psoTrg.iType = STYPE_DEVICE)
  let psoSrc : Option SURFOBJ :=
    psoSrc.map (fun so => if so.iType = STYPE_DEVICE then pdev.psoShadow else so)
  let res : Bool := true
  if res && bNeedUpdate then
    match blitCells psoSrc pptlSrc pbo rop4 prclTrg pdev.charShadow with
    | none => none
    | some g => some (TextRefreshScreen { pdev with charShadow := g }, res)
  else
    some (pdev, res)

/-- The function `DrvCopyBits` (lines 852-864). -/
def DrvCopyBits (pdev : PDEV) (psoDest : SURFOBJ) (psoSrc : Option SURFOBJ)
    (prclDest : RECTL) (pptlSrc : Option POINTL) : Option (PDEV × Bool) :=
  DrvBitBlt pdev psoDest psoSrc prclDest pptlSrc none (ROP3_TO_ROP4 SRCCOPY)

/-! ## Text output -/

/-- A glyph position (`GLYPHPOS`): glyph handle and position. -/
structure GLYPHPOS where
  hg : Nat
  ptl : POINTL
deriving DecidableEq, Repr

/-- The string object handed to `DrvTextOut`. `pgp` is `none` for a null
pointer, otherwise the `cGlyphs` glyph positions of the whole string.
`batches` lists what the successive calls of the engine service `STROBJ_bEnum`
deliver: the returned `BOOL` and the glyph positions of the batch. -/
structure STROBJ where
  pgp : Option (List GLYPHPOS)
  batches : List (Bool × List GLYPHPOS)

/-- The `do ... while (Continue && ret)` loop of `DrvTextOut` (lines 910-932)
when `pstro->pgp` is null. The argument lists the batches `STROBJ_bEnum` has
yet to deliver; once they are used up the service returns `FALSE` with no
glyph. The result is `ret` and the batches printed by line 930. -/
def textOutLoop : List (Bool × List GLYPHPOS) → Bool × List (List GLYPHPOS)
  | [] => (false, [[]])
  | (Continue, glyphs) :: rest =>
    let ret : Bool := decide (glyphs.length > 0)
    if Continue && ret then
      let r := textOutLoop rest
      (r.1, glyphs :: r.2)
    else
      (ret, [glyphs])

/-- The function `DrvTextOut` (lines 885-937). Of its arguments only `pso`
(for the device) and `pstro` are used beyond printing. The failed
`ASSERT(FALSE)` of line 906 prints a message and breaks into the debugger,
after which the run goes on; it touches no device state. The result is the
new device state, the returned `BOOL` and the batches printed by line 930. -/
def DrvTextOut (pdev : PDEV) (pstro : STROBJ) : PDEV × Bool × List (List GLYPHPOS) :=
  let r : Bool × List (List GLYPHPOS) :=
    match pstro.pgp with
    | some glyphs => (decide (glyphs.length > 0), [glyphs])
    | none => textOutLoop pstro.batches
  (TextRefreshScreen pdev, r.1, r.2)

/-! ## Mode enumeration -/

/-- The value a natural number has once stored in a 32-bit `ULONG` or `DWORD`. -/
def DWORD_wrap (n : Nat) : Nat := n % 4294967296

/-- The value a natural number has once stored in a 16-bit `WORD`. -/
def WORD_wrap (n : Nat) : Nat := n % 65536

/-- Status code `ERROR_SUCCESS` of `winerror.h`. -/
def ERROR_SUCCESS : Nat := 0

/-- Attribute flag `VIDEO_MODE_GRAPHICS` of `ntddvdeo.h`. -/
def VIDEO_MODE_GRAPHICS : Nat := 0x0002

/-- Size in bytes of `DMEXTRA` (lines 21-24), a structure of one `ULONG`. -/
abbrev sizeof_DMEXTRA : Nat := 4

/-- The fields of `VIDEO_MODE_INFORMATION` that `DrvGetModes` uses. -/
structure VIDEO_MODE_INFORMATION where
  Length : Nat
  ModeIndex : Nat
  AttributeFlags : Nat
deriving DecidableEq, Repr

/-- What the services called by `DrvGetModes` answer: the status of
`IOCTL_VIDEO_QUERY_NUM_AVAIL_MODES`, whether `EngAllocMem` returns memory,
the status of `IOCTL_VIDEO_QUERY_AVAIL_MODES` and the array of `NumModes`
mode descriptions the miniport writes. -/
structure VideoServices where
  retNumModes : Nat
  allocOk : Bool
  retModes : Nat
  modes : List VIDEO_MODE_INFORMATION
deriving DecidableEq, Repr

/-- One record written to the output buffer by lines 239-254: a `DEVMODEW`
followed by its `DMEXTRA`. The fields set from header constants that are not
among the sources (`dmSpecVersion`, `dmDriverVersion`, `dmDisplayFlags`,
`dmFields`) are left out. -/
structure DEVMODE_record where
  dmSize : Nat
  dmDriverExtra : Nat
  dmBitsPerPel : Nat
  dmPelsWidth : Nat
  dmPelsHeight : Nat
  dmDisplayFrequency : Nat
  ModeIndex : Nat
deriving DecidableEq, Repr

/-- The test `!(CurrentMode->AttributeFlags & VIDEO_MODE_GRAPHICS)` of
line 218. -/
def isSuitable (m : VIDEO_MODE_INFORMATION) : Bool :=
  decide (m.AttributeFlags &&& VIDEO_MODE_GRAPHICS = 0)

/-- The counter `SuitableModes` after the loop of lines 213-222. -/
def countSuitable (modes : List VIDEO_MODE_INFORMATION) : Nat :=
  modes.foldl (fun n m => if isSuitable m then DWORD_wrap (n + 1) else n) 0

/-- The mode array after the loop of lines 213-222: the modes that are not
suitable have their `Length` set to zero. -/
def markModes (modes : List VIDEO_MODE_INFORMATION) : List VIDEO_MODE_INFORMATION :=
  modes.map (fun m => if isSuitable m then m else { m with Length := 0 })

/-- The loop of lines 234-264. The list holds the modes from `CurrentMode` to
the end of the array; the other arguments are `AvailableCount`,
`SuitableModes`, `OutputSize` and the records written so far. The result is
`none` when the loop reads past the end of the array. -/
def fillModes (sizeof_DEVMODEW : Nat) :
    List VIDEO_MODE_INFORMATION → Nat → Nat → Nat → List DEVMODE_record →
    Option (Nat × List DEVMODE_record)
  | [], AvailableCount, SuitableModes, OutputSize, written =>
    if AvailableCount > 0 ∧ SuitableModes > 0 then none else some (OutputSize, written)
  | CurrentMode :: rest, AvailableCount, SuitableModes, OutputSize, written =>
    if AvailableCount > 0 ∧ SuitableModes > 0 then
      if CurrentMode.Length ≠ 0 then
        let pdm : DEVMODE_record :=
          { dmSize := WORD_wrap sizeof_DEVMODEW
            dmDriverExtra := WORD_wrap sizeof_DMEXTRA
            dmBitsPerPel := 1
            dmPelsWidth := FAKE_SCREEN_WIDTH
            dmPelsHeight := FAKE_SCREEN_HEIGHT
            dmDisplayFrequency := 1
            ModeIndex := CurrentMode.ModeIndex }
        fillModes sizeof_DEVMODEW rest (AvailableCount - 1) (SuitableModes - 1)
          (DWORD_wrap (OutputSize + pdm.dmSize + pdm.dmDriverExtra)) (written ++ [pdm])
      else
        fillModes sizeof_DEVMODEW rest AvailableCount SuitableModes OutputSize written
    else some (OutputSize, written)

/-- The function `DrvGetModes` (lines 161-268). `sizeof_DEVMODEW` is the size
of the structure `DEVMODEW` of `wingdi.h`; `pdm` is `true` when the output
pointer is not null. The result is the returned `ULONG` and the records
written to the output buffer, or `none` when the run reads past the end of
the mode array. -/
def DrvGetModes (sizeof_DEVMODEW : Nat) (hDriver : VideoServices) (cjSize : Nat)
    (pdm : Bool) : Option (Nat × List DEVMODE_record) :=
  if hDriver.retNumModes ≠ ERROR_SUCCESS then some (0, [])
  else if hDriver.allocOk = false then some (0, [])
  else if hDriver.retModes ≠ ERROR_SUCCESS then some (0, [])
  else
    let SuitableModes := countSuitable hDriver.modes
    let ModeInformation := markModes hDriver.modes
    if pdm = false then
      some (DWORD_wrap ((SuitableModes + sizeof_DMEXTRA) * sizeof_DEVMODEW), [])
    else
      let AvailableCount := cjSize / (sizeof_DEVMODEW + sizeof_DMEXTRA)
      fillModes sizeof_DEVMODEW ModeInformation AvailableCount SuitableModes 0 []

/-- Size in bytes of the structure `DEVMODEW` of `wingdi.h`. -/
abbrev sizeof_DEVMODEW : Nat := 220

/-- A miniport that reports one text mode. -/
def oneTextMode : VideoServices :=
  { retNumModes := ERROR_SUCCESS, allocOk := true, retModes := ERROR_SUCCESS
    modes := [{ Length := 76, ModeIndex := 1, AttributeFlags := 0 }] }

/-- A miniport that reports one graphics mode, hence no suitable mode. -/
def oneGraphicsMode : VideoServices :=
  { retNumModes := ERROR_SUCCESS, allocOk := true, retModes := ERROR_SUCCESS
    modes := [{ Length := 76, ModeIndex := 0, AttributeFlags := 0x0003 }] }

/-! ## Vocabulary of the statements -/

/-- The cell written by a solid fill of colour `c`. -/
def fillCell (c : Nat) : CELL :=
  { Char := UCHAR_of 0x20, Attribute := UCHAR_of ((UCHAR_of c <<< 4) + 7) }

/-- The set of cells a rectangle of fake pixels is scaled onto: the cell
`(col, row)` is hit when some pixel of the rectangle has that column and
row under the scaling of lines 822-823. -/
def cellHit (prclTrg : RECTL) (row : Fin REAL_SCREEN_HEIGHT) (col : Fin REAL_SCREEN_WIDTH) :
    Prop :=
  ∃ fakeX fakeY : Int, prclTrg.left ≤ fakeX ∧ fakeX < prclTrg.right ∧
    prclTrg.top ≤ fakeY ∧ fakeY < prclTrg.bottom ∧
    scaleX fakeX = (col : Nat) ∧ scaleY fakeY = (row : Nat)

/-- The image of a rectangle of fake pixels under the mapping
`col = fakeX * 80 / 720`, `row = fakeY * 25 / 400` (truncating division) as
the specification words it. -/
def pixelToCellImage (prclTrg : RECTL) (row : Fin REAL_SCREEN_HEIGHT)
    (col : Fin REAL_SCREEN_WIDTH) : Prop :=
  ∃ fakeX fakeY : Int, prclTrg.left ≤ fakeX ∧ fakeX < prclTrg.right ∧
    prclTrg.top ≤ fakeY ∧ fakeY < prclTrg.bottom ∧
    Int.tdiv (fakeX * 80) 720 = (col : Nat) ∧ Int.tdiv (fakeY * 25) 400 = (row : Nat)

/-- The byte offset from `FrameBuffer` of the cursor glyph store of line 94,
`(y * REAL_SCREEN_WIDTH + x) * sizeof(CELL)`. -/
def cursorOffset (cur : CURSOR) : Int :=
  LONG_add (LONG_mul (scaleY cur.y) (REAL_SCREEN_WIDTH : Nat)) (scaleX cur.x) *
    (sizeof_CELL : Nat)

/-- The device state before any drawing: every cell zero, cursor hidden at the
origin, frame buffer zero. -/
def freshPDEV : PDEV :=
  { psoShadow := { iType := STYPE_BITMAP, lDelta := 720, pvScan0 := some (fun _ => 0) }
    charShadow := fun _ _ => { Char := 0, Attribute := 0 }
    cur := CURSOR_vInit
    FrameBuffer := fun _ => 0 }

/-- The abstract device surface handed to the engine by `DrvEnableSurface`. -/
def deviceSurface : SURFOBJ :=
  { iType := STYPE_DEVICE, lDelta := 0, pvScan0 := none }

theorem LONG_wrap_eq_self (n : Int) (h1 : -2147483648 ≤ n) (h2 : n < 2147483648) :
    LONG_wrap n = n := by
  unfold LONG_wrap
  omega

theorem scaleX_eq_div (fakeX : Int) (h1 : 0 ≤ fakeX) (h2 : fakeX < 26843546) :
    scaleX fakeX = fakeX / 9 := by
  unfold scaleX LONG_mul LONG_div
  simp only [FAKE_SCREEN_WIDTH, REAL_SCREEN_WIDTH, CHAR_WIDTH, Nat.cast_ofNat, Nat.reduceMul]
  rw [LONG_wrap_eq_self _ (by omega) (by omega), Int.tdiv_eq_ediv (by omega) (by omega)]
  omega

theorem scaleY_eq_div (fakeY : Int) (h1 : 0 ≤ fakeY) (h2 : fakeY < 85899346) :
    scaleY fakeY = fakeY / 16 := by
  unfold scaleY LONG_mul LONG_div
  simp only [FAKE_SCREEN_HEIGHT, REAL_SCREEN_HEIGHT, CHAR_HEIGHT, Nat.cast_ofNat, Nat.reduceMul]
  rw [LONG_wrap_eq_self _ (by omega) (by omega), Int.tdiv_eq_ediv (by omega) (by omega)]
  omega

theorem mem_LONG_range (lo hi v : Int) : v ∈ LONG_range lo hi ↔ lo ≤ v ∧ v < hi := by
  unfold LONG_range
  simp only [List.mem_map, List.mem_range]
  constructor
  · rintro ⟨i, hlt, rfl⟩
    omega
  · intro h
    exact ⟨(v - lo).toNat, by omega, by omega⟩

/-! ## The cell update loop as a fold -/

/-- A loop whose every step paints the cells it hits with one fixed value, and
never faults, ends with exactly the cells hit by some step painted. -/
theorem foldlM_paint {α : Type} (step : Grid → α → Option Grid)
    (hit : α → Fin REAL_SCREEN_HEIGHT → Fin REAL_SCREEN_WIDTH → Prop) (v : CELL)
    (hstep : ∀ g a, ∃ g', step g a = some g' ∧
      ∀ r c, (hit a r c → g' r c = v) ∧ (¬ hit a r c → g' r c = g r c))
    (l : List α) (g : Grid) :
    ∃ g', l.foldlM step g = some g' ∧
      ∀ r c, ((∃ a ∈ l, hit a r c) → g' r c = v) ∧
        ((¬ ∃ a ∈ l, hit a r c) → g' r c = g r c) := by
  induction l generalizing g with
  | nil =>
    refine ⟨g, rfl, fun r c => ⟨?_, fun _ => rfl⟩⟩
    rintro ⟨a, ha, _⟩
    cases ha
  | cons a l ih =>
    obtain ⟨g1, h1, hg1⟩ := hstep g a
    obtain ⟨g2, h2, hg2⟩ := ih g1
    refine ⟨g2, ?_, fun r c => ⟨?_, ?_⟩⟩
    · rw [List.foldlM_cons, h1]
      exact h2
    · rintro ⟨b, hb, hhit⟩
      by_cases hl : ∃ b ∈ l, hit b r c
      · exact (hg2 r c).1 hl
      · rw [(hg2 r c).2 hl]
        rcases List.mem_cons.mp hb with rfl | hb'
        · exact (hg1 r c).1 hhit
        · exact absurd ⟨b, hb', hhit⟩ hl
    · intro hno
      have hl : ¬ ∃ b ∈ l, hit b r c := by
        rintro ⟨b, hb, hhit⟩
        exact hno ⟨b, List.mem_cons_of_mem _ hb, hhit⟩
      rw [(hg2 r c).2 hl]
      exact (hg1 r c).2 (fun hhit => hno ⟨a, List.mem_cons_self _ _, hhit⟩)

/-- A loop whose every step returns the grid it was given returns the grid it
was given. -/
theorem foldlM_skip {α : Type} (step : Grid → α → Option Grid)
    (hstep : ∀ g a, step g a = some g) (l : List α) (g : Grid) :
    l.foldlM step g = some g := by
  induction l with
  | nil => rfl
  | cons a l ih => rw [List.foldlM_cons, hstep]; exact ih

theorem blitPixel_PATCOPY (psoSrc : Option SURFOBJ) (pptlSrc : Option POINTL)
    (b : BRUSHOBJ) (fakeX fakeY : Int) (g : Grid) :
    ∃ g', blitPixel psoSrc pptlSrc (some b) (ROP3_TO_ROP4 PATCOPY) fakeX fakeY g = some g' ∧
      ∀ (r : Fin REAL_SCREEN_HEIGHT) (c : Fin REAL_SCREEN_WIDTH),
        ((scaleX fakeX = (c : Nat) ∧ scaleY fakeY = (r : Nat)) →
          g' r c = fillCell b.iSolidColor) ∧
        (¬ (scaleX fakeX = (c : Nat) ∧ scaleY fakeY = (r : Nat)) → g' r c = g r c) := by
  unfold blitPixel
  by_cases h : inGrid (scaleX fakeX) (scaleY fakeY)
  · simp only [h, dite_true, if_true]
    refine ⟨_, rfl, fun r c => ⟨?_, ?_⟩⟩
    · rintro ⟨hx, hy⟩
      have hr : r = ⟨(scaleY fakeY).toNat, by
          simp only [inGrid, REAL_SCREEN_HEIGHT] at h ⊢; omega⟩ := by
        apply Fin.ext; simp only [hy, Int.toNat_ofNat]
      have hc : c = ⟨(scaleX fakeX).toNat, by
          simp only [inGrid, REAL_SCREEN_WIDTH] at h ⊢; omega⟩ := by
        apply Fin.ext; simp only [hx, Int.toNat_ofNat]
      simp only [setCell, fillCell]
      rw [if_pos ⟨hr, hc⟩]
    · intro hn
      simp only [setCell]
      rw [if_neg]
      rintro ⟨hr, hc⟩
      apply hn
      unfold inGrid at h
      subst hr hc
      simp only [Int.toNat_of_nonneg h.1, Int.toNat_of_nonneg h.2.1, and_self]
  · simp only [h, dite_false]
    refine ⟨g, rfl, fun r c => ⟨?_, fun _ => rfl⟩⟩
    rintro ⟨hx, hy⟩
    exfalso
    apply h
    unfold inGrid
    have := r.isLt
    have := c.isLt
    simp only [REAL_SCREEN_WIDTH, REAL_SCREEN_HEIGHT] at *
    omega

theorem blitCells_PATCOPY (psoSrc : Option SURFOBJ) (pptlSrc : Option POINTL)
    (b : BRUSHOBJ) (prclTrg : RECTL) (g : Grid) :
    ∃ g', blitCells psoSrc pptlSrc (some b) (ROP3_TO_ROP4 PATCOPY) prclTrg g = some g' ∧
      ∀ (r : Fin REAL_SCREEN_HEIGHT) (c : Fin REAL_SCREEN_WIDTH),
        (cellHit prclTrg r c → g' r c = fillCell b.iSolidColor) ∧
        (¬ cellHit prclTrg r c → g' r c = g r c) := by
  have hcol : ∀ (g : Grid) (fakeX : Int), ∃ g',
      blitColumn psoSrc pptlSrc (some b) (ROP3_TO_ROP4 PATCOPY) prclTrg fakeX g = some g' ∧
      ∀ (r : Fin REAL_SCREEN_HEIGHT) (c : Fin REAL_SCREEN_WIDTH),
        ((∃ fakeY ∈ LONG_range prclTrg.top prclTrg.bottom,
            scaleX fakeX = (c : Nat) ∧ scaleY fakeY = (r : Nat)) →
          g' r c = fillCell b.iSolidColor) ∧
        ((¬ ∃ fakeY ∈ LONG_range prclTrg.top prclTrg.bottom,
            scaleX fakeX = (c : Nat) ∧ scaleY fakeY = (r : Nat)) → g' r c = g r c) := by
    intro g fakeX
    exact foldlM_paint _ (fun fakeY r c => scaleX fakeX = (c : Nat) ∧ scaleY fakeY = (r : Nat))
      _ (fun g fakeY => blitPixel_PATCOPY psoSrc pptlSrc b fakeX fakeY g) _ g
  obtain ⟨g', hg', hcells⟩ := foldlM_paint _
    (fun fakeX r c => ∃ fakeY ∈ LONG_range prclTrg.top prclTrg.bottom,
      scaleX fakeX = (c : Nat) ∧ scaleY fakeY = (r : Nat))
    _ hcol (LONG_range prclTrg.left prclTrg.right) g
  have hiff : ∀ (r : Fin REAL_SCREEN_HEIGHT) (c : Fin REAL_SCREEN_WIDTH),
      cellHit prclTrg r c ↔ ∃ fakeX ∈ LONG_range prclTrg.left prclTrg.right,
        ∃ fakeY ∈ LONG_range prclTrg.top prclTrg.bottom,
          scaleX fakeX = (c : Nat) ∧ scaleY fakeY = (r : Nat) := by
    intro r c
    constructor
    · rintro ⟨fx, fy, h1, h2, h3, h4, h5⟩
      exact ⟨fx, (mem_LONG_range _ _ _).2 ⟨h1, h2⟩, fy, (mem_LONG_range _ _ _).2 ⟨h3, h4⟩, h5⟩
    · rintro ⟨fx, hfx, fy, hfy, h5⟩
      have hx := (mem_LONG_range _ _ _).1 hfx
      have hy := (mem_LONG_range _ _ _).1 hfy
      exact ⟨fx, fy, hx.1, hx.2, hy.1, hy.2, h5⟩
  refine ⟨g', hg', fun r c => ⟨fun h => (hcells r c).1 ((hiff r c).1 h), fun h => ?_⟩⟩
  exact (hcells r c).2 (fun h' => h ((hiff r c).2 h'))

theorem TextRefreshScreen_charShadow (pdev : PDEV) :
    (TextRefreshScreen pdev).charShadow = pdev.charShadow := by
  unfold TextRefreshScreen
  split <;> rfl

theorem TextRefreshScreen_cur (pdev : PDEV) :
    (TextRefreshScreen pdev).cur = pdev.cur := by
  unfold TextRefreshScreen
  split <;> rfl

theorem TextRefreshScreen_psoShadow (pdev : PDEV) :
    (TextRefreshScreen pdev).psoShadow = pdev.psoShadow := by
  unfold TextRefreshScreen
  split <;> rfl

theorem fillCell_of_le (c : Nat) (hc : c ≤ 7) :
    fillCell c = { Char := 0x20, Attribute := (c <<< 4) ||| 7 } := by
  unfold fillCell UCHAR_of
  interval_cases c <;> rfl

theorem scaleX_eq_tdiv (fakeX : Int) (h1 : 0 ≤ fakeX) (h2 : fakeX < 26843546) :
    scaleX fakeX = Int.tdiv (fakeX * 80) 720 := by
  unfold scaleX LONG_mul LONG_div
  simp only [FAKE_SCREEN_WIDTH, REAL_SCREEN_WIDTH, CHAR_WIDTH, Nat.cast_ofNat, Nat.reduceMul]
  rw [LONG_wrap_eq_self _ (by omega) (by omega)]

theorem scaleY_eq_tdiv (fakeY : Int) (h1 : 0 ≤ fakeY) (h2 : fakeY < 85899346) :
    scaleY fakeY = Int.tdiv (fakeY * 25) 400 := by
  unfold scaleY LONG_mul LONG_div
  simp only [FAKE_SCREEN_HEIGHT, REAL_SCREEN_HEIGHT, CHAR_HEIGHT, Nat.cast_ofNat,
    Nat.reduceMul]
  rw [LONG_wrap_eq_self _ (by omega) (by omega)]

theorem cellHit_iff_pixelToCellImage (prclTrg : RECTL)
    (hrect : 0 ≤ prclTrg.left ∧ prclTrg.right ≤ 720 ∧ 0 ≤ prclTrg.top ∧ prclTrg.bottom ≤ 400)
    (row : Fin REAL_SCREEN_HEIGHT) (col : Fin REAL_SCREEN_WIDTH) :
    cellHit prclTrg row col ↔ pixelToCellImage prclTrg row col := by
  constructor
  · rintro ⟨fx, fy, h1, h2, h3, h4, h5, h6⟩
    refine ⟨fx, fy, h1, h2, h3, h4, ?_, ?_⟩
    · rw [← scaleX_eq_tdiv fx (by omega) (by omega)]; exact h5
    · rw [← scaleY_eq_tdiv fy (by omega) (by omega)]; exact h6
  · rintro ⟨fx, fy, h1, h2, h3, h4, h5, h6⟩
    refine ⟨fx, fy, h1, h2, h3, h4, ?_, ?_⟩
    · rw [scaleX_eq_tdiv fx (by omega) (by omega)]; exact h5
    · rw [scaleY_eq_tdiv fy (by omega) (by omega)]; exact h6

theorem DrvBitBlt_device (pdev : PDEV) (psoTrg : SURFOBJ) (psoSrc : Option SURFOBJ)
    (prclTrg : RECTL) (pptlSrc : Option POINTL) (pbo : Option BRUSHOBJ) (rop4 : Nat)
    (hdev : psoTrg.iType = STYPE_DEVICE) :
    DrvBitBlt pdev psoTrg psoSrc prclTrg pptlSrc pbo rop4 =
      (blitCells (psoSrc.map (fun so => if so.iType = STYPE_DEVICE then pdev.psoShadow else so))
        pptlSrc pbo rop4 prclTrg pdev.charShadow).map
        (fun g => (TextRefreshScreen { pdev with charShadow := g }, true)) := by
  unfold DrvBitBlt
  simp only [hdev, decide_True, Bool.and_self, if_true]
  cases blitCells _ pptlSrc pbo rop4 prclTrg pdev.charShadow <;> rfl

theorem TextRefreshScreen_FrameBuffer (pdev : PDEV) (k : Int) :
    (TextRefreshScreen pdev).FrameBuffer k =
      if pdev.cur.Visible = true ∧ k = cursorOffset pdev.cur then 0x40
      else if 0 ≤ k ∧ k < 4000 then charShadowByte pdev.charShadow k
      else pdev.FrameBuffer k := by
  unfold TextRefreshScreen cursorOffset
  cases hv : pdev.cur.Visible
  · simp [RtlCopyMemory]
  · by_cases hk : k = LONG_add (LONG_mul (scaleY pdev.cur.y) (REAL_SCREEN_WIDTH : Nat))
        (scaleX pdev.cur.x) * (sizeof_CELL : Nat)
    · simp [storeByte, UCHAR_of, hk]
    · simp [storeByte, RtlCopyMemory, UCHAR_of, hk]

theorem charShadowByte_of_cell (g : Grid) (row : Fin REAL_SCREEN_HEIGHT)
    (col : Fin REAL_SCREEN_WIDTH) (k : Int) (n : Nat) (hn : k.toNat = n) (hk0 : 0 ≤ k)
    (hr : n / 2 / 80 = (row : Nat)) (hc : n / 2 % 80 = (col : Nat)) :
    charShadowByte g k = if n % 2 = 0 then (g row col).Char else (g row col).Attribute := by
  have hrow : (row : Nat) < 25 := row.isLt
  subst hn
  have hk : 0 ≤ k ∧ k < (sizeof_charShadow : Nat) := by
    refine ⟨hk0, ?_⟩
    show k < ((25 * 80 * 2 : Nat) : Int)
    omega
  unfold charShadowByte
  rw [dif_pos hk]
  have e1 : ∀ h, (⟨k.toNat / sizeof_CELL / REAL_SCREEN_WIDTH, h⟩ :
      Fin REAL_SCREEN_HEIGHT) = row := by
    intro h; apply Fin.ext; exact hr
  have e2 : ∀ h, (⟨k.toNat / sizeof_CELL % REAL_SCREEN_WIDTH, h⟩ :
      Fin REAL_SCREEN_WIDTH) = col := by
    intro h; apply Fin.ext; exact hc
  simp only [e1, e2]

theorem charShadowByte_Char (g : Grid) (row : Fin REAL_SCREEN_HEIGHT)
    (col : Fin REAL_SCREEN_WIDTH) :
    charShadowByte g (2 * (((row : Nat) : Int) * 80 + ((col : Nat) : Int))) =
      (g row col).Char := by
  have hrow : (row : Nat) < 25 := row.isLt
  have hcol : (col : Nat) < 80 := col.isLt
  rw [charShadowByte_of_cell g row col _ (2 * ((row : Nat) * 80 + (col : Nat))) (by omega)
    (by omega) (by omega) (by omega)]
  rw [if_pos (by omega)]

theorem charShadowByte_Attribute (g : Grid) (row : Fin REAL_SCREEN_HEIGHT)
    (col : Fin REAL_SCREEN_WIDTH) :
    charShadowByte g (2 * (((row : Nat) : Int) * 80 + ((col : Nat) : Int)) + 1) =
      (g row col).Attribute := by
  have hrow : (row : Nat) < 25 := row.isLt
  have hcol : (col : Nat) < 80 := col.isLt
  rw [charShadowByte_of_cell g row col _ (2 * ((row : Nat) * 80 + (col : Nat)) + 1) (by omega)
    (by omega) (by omega) (by omega)]
  rw [if_neg (by omega)]

theorem cursorOffset_on_screen (cur : CURSOR) (hx : 0 ≤ cur.x ∧ cur.x < 720)
    (hy : 0 ≤ cur.y ∧ cur.y < 400) :
    cursorOffset cur = 2 * ((cur.y / 16) * 80 + cur.x / 9) := by
  unfold cursorOffset LONG_add LONG_mul
  rw [scaleX_eq_div _ hx.1 (by omega), scaleY_eq_div _ hy.1 (by omega)]
  simp only [REAL_SCREEN_WIDTH, Nat.cast_ofNat]
  rw [LONG_wrap_eq_self (cur.y / 16 * 80) (by omega) (by omega),
    LONG_wrap_eq_self _ (by omega) (by omega)]
  omega

theorem ROP4_SRCCOPY_ne_PATCOPY : ROP3_TO_ROP4 SRCCOPY ≠ ROP3_TO_ROP4 PATCOPY := by
  decide

theorem blitPixel_SRCCOPY (psoSrc : Option SURFOBJ) (pptlSrc : Option POINTL)
    (pbo : Option BRUSHOBJ) (fakeX fakeY : Int) (g : Grid) :
    blitPixel psoSrc pptlSrc pbo (ROP3_TO_ROP4 SRCCOPY) fakeX fakeY g = some g := by
  unfold blitPixel
  by_cases h : inGrid (scaleX fakeX) (scaleY fakeY)
  · simp only [h, dite_true, if_neg ROP4_SRCCOPY_ne_PATCOPY, if_true]
  · simp only [h, dite_false]

theorem blitCells_SRCCOPY (psoSrc : Option SURFOBJ) (pptlSrc : Option POINTL)
    (pbo : Option BRUSHOBJ) (prclTrg : RECTL) (g : Grid) :
    blitCells psoSrc pptlSrc pbo (ROP3_TO_ROP4 SRCCOPY) prclTrg g = some g := by
  unfold blitCells
  apply foldlM_skip
  intro g fakeX
  unfold blitColumn
  apply foldlM_skip
  intro g fakeY
  exact blitPixel_SRCCOPY psoSrc pptlSrc pbo fakeX fakeY g

theorem DrvBitBlt_not_device (pdev : PDEV) (psoTrg : SURFOBJ) (psoSrc : Option SURFOBJ)
    (prclTrg : RECTL) (pptlSrc : Option POINTL) (pbo : Option BRUSHOBJ) (rop4 : Nat)
    (hdev : psoTrg.iType ≠ STYPE_DEVICE) :
    DrvBitBlt pdev psoTrg psoSrc prclTrg pptlSrc pbo rop4 = some (pdev, true) := by
  unfold DrvBitBlt
  simp only [hdev, decide_False, Bool.and_false, Bool.false_eq_true, if_false]

/-- A loop whose every step returns returns. -/
theorem foldlM_returns {α : Type} (step : Grid → α → Option Grid)
    (hstep : ∀ g a, ∃ g', step g a = some g') (l : List α) (g : Grid) :
    ∃ g', l.foldlM step g = some g' := by
  induction l generalizing g with
  | nil => exact ⟨g, rfl⟩
  | cons a l ih =>
    obtain ⟨g1, h1⟩ := hstep g a
    obtain ⟨g2, h2⟩ := ih g1
    exact ⟨g2, by rw [List.foldlM_cons, h1]; exact h2⟩

theorem blitPixel_returns (psoSrc : Option SURFOBJ) (pptlSrc : Option POINTL)
    (pbo : Option BRUSHOBJ) (rop4 : Nat) (fakeX fakeY : Int) (g : Grid)
    (hbrush : rop4 = ROP3_TO_ROP4 PATCOPY → pbo ≠ none)
    (hbits : ∀ so, psoSrc = some so → so.pvScan0 ≠ none) :
    ∃ g', blitPixel psoSrc pptlSrc pbo rop4 fakeX fakeY g = some g' := by
  unfold blitPixel
  by_cases h : inGrid (scaleX fakeX) (scaleY fakeY)
  · simp only [h, dite_true]
    by_cases hp : rop4 = ROP3_TO_ROP4 PATCOPY
    · rw [if_pos hp]
      cases hb : pbo with
      | none => exact absurd hb (hbrush hp)
      | some b => exact ⟨_, rfl⟩
    · rw [if_neg hp]
      by_cases hs : rop4 = ROP3_TO_ROP4 SRCCOPY
      · rw [if_pos hs]; exact ⟨_, rfl⟩
      · rw [if_neg hs]
        cases hptl : pptlSrc with
        | none => exact ⟨_, rfl⟩
        | some ptl =>
          cases hso : psoSrc with
          | none => exact ⟨_, rfl⟩
          | some so =>
            cases hpv : so.pvScan0 with
            | none => exact absurd hpv (hbits so hso)
            | some bits => simp only [hpv]; exact ⟨_, rfl⟩
  · simp only [h, dite_false]
    exact ⟨_, rfl⟩

theorem blitCells_returns (psoSrc : Option SURFOBJ) (pptlSrc : Option POINTL)
    (pbo : Option BRUSHOBJ) (rop4 : Nat) (prclTrg : RECTL) (g : Grid)
    (hbrush : rop4 = ROP3_TO_ROP4 PATCOPY → pbo ≠ none)
    (hbits : ∀ so, psoSrc = some so → so.pvScan0 ≠ none) :
    ∃ g', blitCells psoSrc pptlSrc pbo rop4 prclTrg g = some g' := by
  unfold blitCells
  apply foldlM_returns
  intro g fakeX
  unfold blitColumn
  apply foldlM_returns
  intro g fakeY
  exact blitPixel_returns psoSrc pptlSrc pbo rop4 fakeX fakeY g hbrush hbits

theorem textOutLoop_last (l : List (Bool × List GLYPHPOS)) :
    ∃ last, (textOutLoop l).2.getLast? = some last ∧
      ((textOutLoop l).1 = true ↔ 0 < last.length) := by
  induction l with
  | nil => exact ⟨[], rfl, by simp [textOutLoop]⟩
  | cons b rest ih =>
    obtain ⟨more, glyphs⟩ := b
    obtain ⟨last, hlast, hret⟩ := ih
    unfold textOutLoop
    by_cases hc : (more && decide (glyphs.length > 0)) = true
    · simp only [hc, if_true]
      refine ⟨last, ?_, hret⟩
      cases hr : (textOutLoop rest).2 with
      | nil => rw [hr] at hlast; cases hlast
      | cons x xs => rw [hr] at hlast; rw [List.getLast?_cons_cons]; exact hlast
    · simp only [hc, if_false]
      exact ⟨glyphs, rfl, by simp⟩

/-- The enumeration loop stops at the first batch that `STROBJ_bEnum` delivers
with `FALSE` or without glyph: it has processed the batches up to that one and
returns whether that one holds a glyph. -/
theorem textOutLoop_stop (pre : List (Bool × List GLYPHPOS)) (b : Bool × List GLYPHPOS)
    (post : List (Bool × List GLYPHPOS))
    (hpre : ∀ p ∈ pre, p.1 = true ∧ 0 < p.2.length)
    (hb : b.1 = false ∨ b.2.length = 0) :
    textOutLoop (pre ++ b :: post) =
      (decide (b.2.length > 0), pre.map Prod.snd ++ [b.2]) := by
  induction pre with
  | nil =>
    obtain ⟨more, glyphs⟩ := b
    simp only [List.nil_append, List.map_nil]
    unfold textOutLoop
    have hc : ¬ ((more && decide (glyphs.length > 0)) = true) := by
      rcases hb with h | h
      · simp only at h
        simp [h]
      · simp only at h
        simp [h]
    rw [if_neg hc]
  | cons p pre ih =>
    obtain ⟨more, glyphs⟩ := p
    have hp := hpre (more, glyphs) (List.mem_cons_self _ _)
    have ih' := ih (fun q hq => hpre q (List.mem_cons_of_mem _ hq))
    simp only [List.cons_append, List.map_cons]
    unfold textOutLoop
    have hc : (more && decide (glyphs.length > 0)) = true := by
      simp only at hp
      simp [hp.1, hp.2]
    simp only [hc, if_true]
    rw [ih']

/-- When every batch comes with `TRUE` and at least one glyph the loop
processes them all, then the call that finds the enumeration used up, and
returns `FALSE`. -/
theorem textOutLoop_used_up (l : List (Bool × List GLYPHPOS))
    (hl : ∀ p ∈ l, p.1 = true ∧ 0 < p.2.length) :
    textOutLoop l = (false, l.map Prod.snd ++ [[]]) := by
  induction l with
  | nil => rfl
  | cons p l ih =>
    obtain ⟨more, glyphs⟩ := p
    have hp := hl (more, glyphs) (List.mem_cons_self _ _)
    have ih' := ih (fun q hq => hl q (List.mem_cons_of_mem _ hq))
    simp only [List.map_cons, List.cons_append]
    unfold textOutLoop
    have hc : (more && decide (glyphs.length > 0)) = true := by
      simp only at hp
      simp [hp.1, hp.2]
    simp only [hc, if_true]
    rw [ih']

theorem PDEV_ext (a b : PDEV) (h1 : a.psoShadow = b.psoShadow)
    (h2 : a.charShadow = b.charShadow) (h3 : a.cur = b.cur)
    (h4 : a.FrameBuffer = b.FrameBuffer) : a = b := by
  cases a; cases b
  simp only at h1 h2 h3 h4
  subst h1 h2 h3 h4
  rfl

/-! ## Claims -/

/-- C1. A `PATCOPY` blit on the device surface with a brush of colour `c` in
`0..7` and a non-empty target rectangle inside `[0,720) x [0,400)` returns
`TRUE`, sets every cell in the `pixelToCell` image of the rectangle to
character `' '` with attribute `(c << 4) | 7` (foreground nibble 7, background
nibble `c`), and leaves every other cell unchanged. -/
theorem C1_PATCOPY_fill (pdev : PDEV) (psoTrg : SURFOBJ) (psoSrc : Option SURFOBJ)
    (prclTrg : RECTL) (pptlSrc : Option POINTL) (c : Nat)
    (hdev : psoTrg.iType = STYPE_DEVICE) (hc : c ≤ 7)
    (hrect : 0 ≤ prclTrg.left ∧ prclTrg.left < prclTrg.right ∧ prclTrg.right ≤ 720 ∧
      0 ≤ prclTrg.top ∧ prclTrg.top < prclTrg.bottom ∧ prclTrg.bottom ≤ 400) :
    ∃ pdev', DrvBitBlt pdev psoTrg psoSrc prclTrg pptlSrc (some { iSolidColor := c })
        (ROP3_TO_ROP4 PATCOPY) = some (pdev', true) ∧
      ∀ (row : Fin REAL_SCREEN_HEIGHT) (col : Fin REAL_SCREEN_WIDTH),
        (pixelToCellImage prclTrg row col →
          pdev'.charShadow row col = { Char := 0x20, Attribute := (c <<< 4) ||| 7 } ∧
          (pdev'.charShadow row col).Attribute % 16 = 7 ∧
          (pdev'.charShadow row col).Attribute / 16 = c) ∧
        (¬ pixelToCellImage prclTrg row col →
          pdev'.charShadow row col = pdev.charShadow row col) := by
  obtain ⟨g', hg', hcells⟩ := blitCells_PATCOPY
    (psoSrc.map (fun so => if so.iType = STYPE_DEVICE then pdev.psoShadow else so))
    pptlSrc { iSolidColor := c } prclTrg pdev.charShadow
  refine ⟨TextRefreshScreen { pdev with charShadow := g' }, ?_, fun row col => ⟨?_, ?_⟩⟩
  · rw [DrvBitBlt_device _ _ _ _ _ _ _ hdev, hg']
    rfl
  · intro himg
    have hhit := (cellHit_iff_pixelToCellImage prclTrg
      ⟨hrect.1, hrect.2.2.1, hrect.2.2.2.1, hrect.2.2.2.2.2⟩ row col).2 himg
    rw [TextRefreshScreen_charShadow]
    have hcell := (hcells row col).1 hhit
    rw [fillCell_of_le c hc] at hcell
    simp only at hcell ⊢
    rw [hcell]
    refine ⟨rfl, ?_, ?_⟩ <;> interval_cases c <;> rfl
  · intro himg
    have hhit : ¬ cellHit prclTrg row col := fun h => himg
      ((cellHit_iff_pixelToCellImage prclTrg
        ⟨hrect.1, hrect.2.2.1, hrect.2.2.2.1, hrect.2.2.2.2.2⟩ row col).1 h)
    rw [TextRefreshScreen_charShadow]
    exact (hcells row col).2 hhit

/-- Witness of C1: on the all-zero grid a `PATCOPY` fill of the rectangle
`(0,0,9,16)` with colour 5 makes cell `(0,0)` equal to `{' ', 0x57}` and
leaves every other cell zero. -/
theorem C1_PATCOPY_fill_witness :
    ∃ pdev', DrvBitBlt freshPDEV deviceSurface none { left := 0, top := 0, right := 9, bottom := 16 }
        none (some { iSolidColor := 5 }) (ROP3_TO_ROP4 PATCOPY) = some (pdev', true) ∧
      pdev'.charShadow 0 0 = { Char := 0x20, Attribute := 0x57 } ∧
      ∀ (row : Fin REAL_SCREEN_HEIGHT) (col : Fin REAL_SCREEN_WIDTH),
        ¬ (row = 0 ∧ col = 0) → pdev'.charShadow row col = { Char := 0, Attribute := 0 } := by
  obtain ⟨pdev', hrun, hcells⟩ := C1_PATCOPY_fill freshPDEV deviceSurface none
    { left := 0, top := 0, right := 9, bottom := 16 } none 5 rfl (by decide) (by decide)
  refine ⟨pdev', hrun, ?_, fun row col hne => ?_⟩
  · exact ((hcells 0 0).1 ⟨0, 0, by decide, by decide, by decide, by decide, by decide,
      by decide⟩).1
  · rw [(hcells row col).2 ?_]
    · rfl
    · rintro ⟨fx, fy, h1, h2, h3, h4, h5, h6⟩
      simp only at h1 h2 h3 h4
      rw [Int.tdiv_eq_ediv (by omega) (by omega)] at h5 h6
      apply hne
      constructor
      · apply Fin.ext
        have : ((row : Nat) : Int) = 0 := by omega
        simpa using this
      · apply Fin.ext
        have : ((col : Nat) : Int) = 0 := by omega
        simpa using this


/-- C2. For a cursor position with `0 <= x < 720` and `0 <= y < 400`, after
`TextRefreshScreen` the frame buffer byte at offset `2*(row*80+col)` is the
character of cell `(col,row)` and the byte at offset `2*(row*80+col)+1` is its
attribute, except that when the cursor is visible the character byte of cell
`(x*80/720, y*25/400)` is `'@'`; when the cursor is hidden the 4000 bytes
equal the memory image of the grid. -/
theorem C2_frame_buffer_output (pdev : PDEV)
    (hx : 0 ≤ pdev.cur.x ∧ pdev.cur.x < 720) (hy : 0 ≤ pdev.cur.y ∧ pdev.cur.y < 400) :
    (∀ (row : Fin REAL_SCREEN_HEIGHT) (col : Fin REAL_SCREEN_WIDTH),
      (TextRefreshScreen pdev).FrameBuffer (2 * (((row : Nat) : Int) * 80 + ((col : Nat) : Int)) + 1)
        = (pdev.charShadow row col).Attribute ∧
      ((pdev.cur.Visible = true ∧ ((col : Nat) : Int) = Int.tdiv (pdev.cur.x * 80) 720 ∧
          ((row : Nat) : Int) = Int.tdiv (pdev.cur.y * 25) 400) →
        (TextRefreshScreen pdev).FrameBuffer (2 * (((row : Nat) : Int) * 80 + ((col : Nat) : Int)))
          = 0x40) ∧
      (¬ (pdev.cur.Visible = true ∧ ((col : Nat) : Int) = Int.tdiv (pdev.cur.x * 80) 720 ∧
          ((row : Nat) : Int) = Int.tdiv (pdev.cur.y * 25) 400) →
        (TextRefreshScreen pdev).FrameBuffer (2 * (((row : Nat) : Int) * 80 + ((col : Nat) : Int)))
          = (pdev.charShadow row col).Char)) ∧
    (pdev.cur.Visible = false → ∀ k : Int, 0 ≤ k → k < 4000 →
      (TextRefreshScreen pdev).FrameBuffer k = charShadowByte pdev.charShadow k) := by
  have hoff := cursorOffset_on_screen pdev.cur hx hy
  have htx : Int.tdiv (pdev.cur.x * 80) 720 = pdev.cur.x / 9 := by
    rw [Int.tdiv_eq_ediv (by omega) (by omega)]; omega
  have hty : Int.tdiv (pdev.cur.y * 25) 400 = pdev.cur.y / 16 := by
    rw [Int.tdiv_eq_ediv (by omega) (by omega)]; omega
  refine ⟨fun row col => ?_, fun hv k hk0 hk1 => ?_⟩
  · have hrow : (row : Nat) < 25 := row.isLt
    have hcol : (col : Nat) < 80 := col.isLt
    refine ⟨?_, ?_, ?_⟩
    · rw [TextRefreshScreen_FrameBuffer, if_neg, if_pos (by omega), charShadowByte_Attribute]
      rintro ⟨_, h⟩
      rw [hoff] at h
      omega
    · rintro ⟨hv, hc, hr⟩
      rw [TextRefreshScreen_FrameBuffer, if_pos]
      refine ⟨hv, ?_⟩
      rw [hoff, hc, hr, htx, hty]
    · intro hn
      rw [TextRefreshScreen_FrameBuffer, if_neg, if_pos (by omega), charShadowByte_Char]
      rintro ⟨hv, h⟩
      apply hn
      rw [hoff] at h
      rw [htx, hty]
      refine ⟨hv, ?_, ?_⟩ <;> omega
  · rw [TextRefreshScreen_FrameBuffer, if_neg, if_pos ⟨hk0, hk1⟩]
    rintro ⟨h, _⟩
    rw [hv] at h
    exact Bool.noConfusion h

/-- Witness of C2: with the cursor shown at `(360, 200)` the frame buffer holds
`'@'` at the character byte of cell `(40, 12)` and the attribute byte of that
cell is the one of the grid. -/
theorem C2_frame_buffer_output_witness :
    (TextRefreshScreen { freshPDEV with
        cur := CURSOR_SetVisible (CURSOR_SetPosition CURSOR_vInit 360 200) true }).FrameBuffer
      (2 * (12 * 80 + 40)) = 0x40 ∧
    (TextRefreshScreen { freshPDEV with
        cur := CURSOR_SetVisible (CURSOR_SetPosition CURSOR_vInit 360 200) true }).FrameBuffer
      (2 * (12 * 80 + 40) + 1) = (freshPDEV.charShadow 12 40).Attribute := by
  have h := (C2_frame_buffer_output { freshPDEV with
    cur := CURSOR_SetVisible (CURSOR_SetPosition CURSOR_vInit 360 200) true }
    (by decide) (by decide)).1 12 40
  exact ⟨h.2.1 ⟨rfl, by decide, by decide⟩, h.1⟩

/-- C8. Calling `TextRefreshScreen` twice in a row leaves the frame buffer
equal to its contents after the first call, and neither call changes the
cell grid or the cursor. -/
theorem C8_refresh_idempotent (pdev : PDEV) :
    TextRefreshScreen (TextRefreshScreen pdev) = TextRefreshScreen pdev ∧
    (TextRefreshScreen pdev).charShadow = pdev.charShadow ∧
    (TextRefreshScreen pdev).cur = pdev.cur ∧
    (TextRefreshScreen (TextRefreshScreen pdev)).charShadow = pdev.charShadow ∧
    (TextRefreshScreen (TextRefreshScreen pdev)).cur = pdev.cur := by
  refine ⟨?_, TextRefreshScreen_charShadow pdev, TextRefreshScreen_cur pdev, ?_, ?_⟩
  · apply PDEV_ext
    · rw [TextRefreshScreen_psoShadow]
    · rw [TextRefreshScreen_charShadow]
    · rw [TextRefreshScreen_cur]
    funext k
    rw [TextRefreshScreen_FrameBuffer (TextRefreshScreen pdev) k,
      TextRefreshScreen_FrameBuffer pdev k, TextRefreshScreen_cur, TextRefreshScreen_charShadow]
    by_cases h1 : pdev.cur.Visible = true ∧ k = cursorOffset pdev.cur
    · simp only [if_pos h1]
    · by_cases h2 : 0 ≤ k ∧ k < 4000
      · simp only [if_neg h1, if_pos h2]
      · simp only [if_neg h1, if_neg h2]
  · rw [TextRefreshScreen_charShadow, TextRefreshScreen_charShadow]
  · rw [TextRefreshScreen_cur, TextRefreshScreen_cur]

/-- C3, the code at the failing input. A `PATCOPY` blit on the device surface
whose target rectangle `(-8, 0, 0, 16)` lies entirely left of the screen
returns `TRUE` and paints cell `(0,0)`: the truncating division maps the fake
abscissas `-8..-1` to column 0, which passes the bounds test of line 824.
The rectangle `(0, -15, 9, 0)`, entirely above the screen, does the same. -/
theorem C3_offscreen_pixels_paint_cell :
    (∃ pdev', DrvBitBlt freshPDEV deviceSurface none
        { left := -8, top := 0, right := 0, bottom := 16 } none (some { iSolidColor := 5 })
        (ROP3_TO_ROP4 PATCOPY) = some (pdev', true) ∧
      pdev'.charShadow 0 0 = { Char := 0x20, Attribute := 0x57 } ∧
      pdev'.charShadow 0 0 ≠ freshPDEV.charShadow 0 0) ∧
    (∃ pdev', DrvBitBlt freshPDEV deviceSurface none
        { left := 0, top := -15, right := 9, bottom := 0 } none (some { iSolidColor := 5 })
        (ROP3_TO_ROP4 PATCOPY) = some (pdev', true) ∧
      pdev'.charShadow 0 0 = { Char := 0x20, Attribute := 0x57 } ∧
      pdev'.charShadow 0 0 ≠ freshPDEV.charShadow 0 0) := by
  constructor
  · obtain ⟨g', hg', hcells⟩ := blitCells_PATCOPY none none { iSolidColor := 5 }
      { left := -8, top := 0, right := 0, bottom := 16 } freshPDEV.charShadow
    have hcell : g' 0 0 = { Char := 0x20, Attribute := 0x57 } :=
      (hcells 0 0).1 ⟨-1, 0, by decide, by decide, by decide, by decide, by decide, by decide⟩
    refine ⟨TextRefreshScreen { freshPDEV with charShadow := g' }, ?_, ?_, ?_⟩
    · rw [DrvBitBlt_device _ _ _ _ _ _ _ rfl]
      simp only [Option.map_none']
      rw [hg']
      rfl
    · rw [TextRefreshScreen_charShadow]; exact hcell
    · rw [TextRefreshScreen_charShadow]
      simp only [hcell]
      decide
  · obtain ⟨g', hg', hcells⟩ := blitCells_PATCOPY none none { iSolidColor := 5 }
      { left := 0, top := -15, right := 9, bottom := 0 } freshPDEV.charShadow
    have hcell : g' 0 0 = { Char := 0x20, Attribute := 0x57 } :=
      (hcells 0 0).1 ⟨0, -1, by decide, by decide, by decide, by decide, by decide, by decide⟩
    refine ⟨TextRefreshScreen { freshPDEV with charShadow := g' }, ?_, ?_, ?_⟩
    · rw [DrvBitBlt_device _ _ _ _ _ _ _ rfl]
      simp only [Option.map_none']
      rw [hg']
      rfl
    · rw [TextRefreshScreen_charShadow]; exact hcell
    · rw [TextRefreshScreen_charShadow]
      simp only [hcell]
      decide

/-- C4. `DrvBitBlt` with `rop4 = ROP3_TO_ROP4(SRCCOPY)` returns `TRUE` and
leaves every cell of the grid unchanged, for every grid, target surface,
target rectangle, source surface, source origin and brush; so does
`DrvCopyBits`. -/
theorem C4_SRCCOPY_keeps_cells (pdev : PDEV) (psoTrg : SURFOBJ) (psoSrc : Option SURFOBJ)
    (prclTrg : RECTL) (pptlSrc : Option POINTL) (pbo : Option BRUSHOBJ) :
    (∃ pdev', DrvBitBlt pdev psoTrg psoSrc prclTrg pptlSrc pbo (ROP3_TO_ROP4 SRCCOPY) =
        some (pdev', true) ∧ pdev'.charShadow = pdev.charShadow) ∧
    (∃ pdev', DrvCopyBits pdev psoTrg psoSrc prclTrg pptlSrc = some (pdev', true) ∧
        pdev'.charShadow = pdev.charShadow) := by
  have key : ∀ pbo : Option BRUSHOBJ,
      ∃ pdev', DrvBitBlt pdev psoTrg psoSrc prclTrg pptlSrc pbo (ROP3_TO_ROP4 SRCCOPY) =
        some (pdev', true) ∧ pdev'.charShadow = pdev.charShadow := by
    intro pbo
    by_cases hdev : psoTrg.iType = STYPE_DEVICE
    · refine ⟨TextRefreshScreen { pdev with charShadow := pdev.charShadow }, ?_, ?_⟩
      · rw [DrvBitBlt_device _ _ _ _ _ _ _ hdev, blitCells_SRCCOPY]
        rfl
      · rw [TextRefreshScreen_charShadow]
    · exact ⟨pdev, DrvBitBlt_not_device _ _ _ _ _ _ _ hdev, rfl⟩
  exact ⟨key pbo, key none⟩

/-- C6, the code at the failing input. `DrvMovePointer` with `x = 720`,
`y = 399` stores the cursor glyph at byte offset 4000 of the frame buffer, one
past its last byte, and with `x = 0`, `y = -16` at byte offset -160, before
its first byte: `TextRefreshScreen` has no bounds test on the cursor cell. -/
theorem C6_cursor_store_outside_buffer :
    cursorOffset (DrvMovePointer freshPDEV 720 399).cur = 4000 ∧
    (DrvMovePointer freshPDEV 720 399).FrameBuffer 4000 = 0x40 ∧
    freshPDEV.FrameBuffer 4000 = 0 ∧
    cursorOffset (DrvMovePointer freshPDEV 0 (-16)).cur = -160 ∧
    (DrvMovePointer freshPDEV 0 (-16)).FrameBuffer (-160) = 0x40 ∧
    freshPDEV.FrameBuffer (-160) = 0 := by
  refine ⟨by decide, ?_, rfl, by decide, ?_, rfl⟩
  · unfold DrvMovePointer
    rw [TextRefreshScreen_FrameBuffer, if_pos]
    exact ⟨rfl, by decide⟩
  · unfold DrvMovePointer
    rw [TextRefreshScreen_FrameBuffer, if_pos]
    exact ⟨rfl, by decide⟩

/-- C7. A `DrvBitBlt` call on a target of type `STYPE_DEVICE` that returns,
returns `TRUE` with the cursor unchanged and the device state equal to the
output of `TextRefreshScreen` for the updated cell grid, whatever the raster
operation; it does return whenever the brush is present for `PATCOPY` and the
source bits are present. A call on a target that is not the device surface
returns `TRUE` and changes nothing. -/
theorem C7_refresh_for_device_targets (pdev : PDEV) (psoTrg : SURFOBJ)
    (psoSrc : Option SURFOBJ) (prclTrg : RECTL) (pptlSrc : Option POINTL)
    (pbo : Option BRUSHOBJ) (rop4 : Nat) :
    (psoTrg.iType = STYPE_DEVICE →
      (∀ pdev' res, DrvBitBlt pdev psoTrg psoSrc prclTrg pptlSrc pbo rop4 = some (pdev', res) →
        res = true ∧ pdev'.cur = pdev.cur ∧
        pdev' = TextRefreshScreen { pdev with charShadow := pdev'.charShadow }) ∧
      ((rop4 = ROP3_TO_ROP4 PATCOPY → pbo ≠ none) →
        (∀ so, psoSrc = some so →
          (if so.iType = STYPE_DEVICE then pdev.psoShadow else so).pvScan0 ≠ none) →
        ∃ pdev', DrvBitBlt pdev psoTrg psoSrc prclTrg pptlSrc pbo rop4 = some (pdev', true))) ∧
    (psoTrg.iType ≠ STYPE_DEVICE →
      DrvBitBlt pdev psoTrg psoSrc prclTrg pptlSrc pbo rop4 = some (pdev, true)) := by
  refine ⟨fun hdev => ⟨?_, ?_⟩, fun hdev => DrvBitBlt_not_device _ _ _ _ _ _ _ hdev⟩
  · intro pdev' res hrun
    rw [DrvBitBlt_device _ _ _ _ _ _ _ hdev] at hrun
    cases hb : blitCells (psoSrc.map
        (fun so => if so.iType = STYPE_DEVICE then pdev.psoShadow else so))
        pptlSrc pbo rop4 prclTrg pdev.charShadow with
    | none => rw [hb] at hrun; cases hrun
    | some g =>
      rw [hb] at hrun
      simp only [Option.map_some', Option.some.injEq, Prod.mk.injEq] at hrun
      obtain ⟨h1, h2⟩ := hrun
      subst h1
      refine ⟨h2.symm, ?_, ?_⟩
      · rw [TextRefreshScreen_cur]
      · rw [TextRefreshScreen_charShadow]
  · intro hbrush hbits
    obtain ⟨g, hg⟩ := blitCells_returns (psoSrc.map
        (fun so => if so.iType = STYPE_DEVICE then pdev.psoShadow else so))
        pptlSrc pbo rop4 prclTrg pdev.charShadow hbrush (by
          intro so hso
          cases hsrc : psoSrc with
          | none => rw [hsrc] at hso; cases hso
          | some so0 =>
            rw [hsrc] at hso
            simp only [Option.map_some', Option.some.injEq] at hso
            rw [← hso]
            exact hbits so0 hsrc)
    exact ⟨_, by rw [DrvBitBlt_device _ _ _ _ _ _ _ hdev, hg]; rfl⟩

/-- Witness of C7: a `SRCCOPY` blit on the device surface returns `TRUE` with
the state that `TextRefreshScreen` produces, and the same blit on a bitmap
surface returns `TRUE` and changes nothing. -/
theorem C7_refresh_for_device_targets_witness :
    (∃ pdev', DrvBitBlt freshPDEV deviceSurface none
        { left := 0, top := 0, right := 9, bottom := 16 } none none (ROP3_TO_ROP4 SRCCOPY)
        = some (pdev', true) ∧
      pdev' = TextRefreshScreen { freshPDEV with charShadow := pdev'.charShadow }) ∧
    DrvBitBlt freshPDEV freshPDEV.psoShadow none
        { left := 0, top := 0, right := 9, bottom := 16 } none none (ROP3_TO_ROP4 SRCCOPY)
        = some (freshPDEV, true) := by
  constructor
  · have h := (C7_refresh_for_device_targets freshPDEV deviceSurface none
      { left := 0, top := 0, right := 9, bottom := 16 } none none (ROP3_TO_ROP4 SRCCOPY)).1 rfl
    obtain ⟨pdev', hrun⟩ := h.2 (by decide) (by intro so hso; cases hso)
    exact ⟨pdev', hrun, (h.1 pdev' true hrun).2.2⟩
  · exact (C7_refresh_for_device_targets freshPDEV freshPDEV.psoShadow none
      { left := 0, top := 0, right := 9, bottom := 16 } none none (ROP3_TO_ROP4 SRCCOPY)).2
      (by decide)

/-- C9. `DrvTextOut` leaves the cell grid and the cursor unchanged, its only
effect on the device state is the one of `TextRefreshScreen`, and it returns
`TRUE` exactly when the last batch of glyphs it processed holds at least one
glyph. When `pstro->pgp` is set that batch is the whole string; otherwise the
batches processed are those `STROBJ_bEnum` delivers up to the first one that
comes with `FALSE` or without glyph, and when there is none, all of them
followed by the empty batch of the call that finds the enumeration used up. -/
theorem C9_DrvTextOut_no_cell_write (pdev : PDEV) (pstro : STROBJ) :
    (DrvTextOut pdev pstro).1 = TextRefreshScreen pdev ∧
    (DrvTextOut pdev pstro).1.charShadow = pdev.charShadow ∧
    (DrvTextOut pdev pstro).1.cur = pdev.cur ∧
    (∃ last, (DrvTextOut pdev pstro).2.2.getLast? = some last ∧
      ((DrvTextOut pdev pstro).2.1 = true ↔ 0 < last.length)) ∧
    (∀ glyphs, pstro.pgp = some glyphs →
      (DrvTextOut pdev pstro).2.2 = [glyphs] ∧
      ((DrvTextOut pdev pstro).2.1 = true ↔ 0 < glyphs.length)) ∧
    (pstro.pgp = none →
      ∀ (pre : List (Bool × List GLYPHPOS)) (b : Bool × List GLYPHPOS)
        (post : List (Bool × List GLYPHPOS)),
        pstro.batches = pre ++ b :: post →
        (∀ p ∈ pre, p.1 = true ∧ 0 < p.2.length) →
        (b.1 = false ∨ b.2.length = 0) →
        (DrvTextOut pdev pstro).2.2 = pre.map Prod.snd ++ [b.2] ∧
        ((DrvTextOut pdev pstro).2.1 = true ↔ 0 < b.2.length)) ∧
    (pstro.pgp = none →
      (∀ p ∈ pstro.batches, p.1 = true ∧ 0 < p.2.length) →
      (DrvTextOut pdev pstro).2.2 = pstro.batches.map Prod.snd ++ [[]] ∧
      (DrvTextOut pdev pstro).2.1 = false) := by
  refine ⟨rfl, TextRefreshScreen_charShadow pdev, TextRefreshScreen_cur pdev, ?_, ?_, ?_, ?_⟩
  · unfold DrvTextOut
    cases hp : pstro.pgp with
    | some glyphs => exact ⟨glyphs, rfl, by simp⟩
    | none => exact textOutLoop_last pstro.batches
  · intro glyphs hp
    unfold DrvTextOut
    rw [hp]
    exact ⟨rfl, by simp⟩
  · intro hp pre b post hsplit hpre hb
    unfold DrvTextOut
    rw [hp]
    rw [hsplit, textOutLoop_stop pre b post hpre hb]
    exact ⟨rfl, by simp⟩
  · intro hp hall
    unfold DrvTextOut
    rw [hp]
    rw [textOutLoop_used_up pstro.batches hall]
    exact ⟨rfl, rfl⟩

/-- Witness of C9: a string of two glyphs handed over through `pstro->pgp`
makes `DrvTextOut` return `TRUE`; an enumeration whose second batch comes with
`FALSE` and one glyph is processed up to that batch and returns `TRUE`; an
enumeration whose second batch is empty returns `FALSE`. -/
theorem C9_DrvTextOut_no_cell_write_witness :
    (DrvTextOut freshPDEV
      { pgp := some [{ hg := 65, ptl := { x := 0, y := 0 } },
                     { hg := 66, ptl := { x := 9, y := 0 } }]
        batches := [] }).2.1 = true ∧
    (DrvTextOut freshPDEV
      { pgp := none
        batches := [(true, [{ hg := 65, ptl := { x := 0, y := 0 } }]),
                    (false, [{ hg := 66, ptl := { x := 9, y := 0 } }]),
                    (true, [{ hg := 67, ptl := { x := 18, y := 0 } }])] }).2 =
      (true, [[{ hg := 65, ptl := { x := 0, y := 0 } }],
              [{ hg := 66, ptl := { x := 9, y := 0 } }]]) ∧
    (DrvTextOut freshPDEV
      { pgp := none
        batches := [(true, [{ hg := 65, ptl := { x := 0, y := 0 } }]),
                    (true, [])] }).2.1 = false := by
  refine ⟨?_, ?_, ?_⟩
  · exact ((C9_DrvTextOut_no_cell_write freshPDEV
      { pgp := some [{ hg := 65, ptl := { x := 0, y := 0 } },
                     { hg := 66, ptl := { x := 9, y := 0 } }]
        batches := [] }).2.2.2.2.1 _ rfl).2.2 (by decide)
  · have h := (C9_DrvTextOut_no_cell_write freshPDEV
      { pgp := none
        batches := [(true, [{ hg := 65, ptl := { x := 0, y := 0 } }]),
                    (false, [{ hg := 66, ptl := { x := 9, y := 0 } }]),
                    (true, [{ hg := 67, ptl := { x := 18, y := 0 } }])] }).2.2.2.2.2.1 rfl
      [(true, [{ hg := 65, ptl := { x := 0, y := 0 } }])]
      (false, [{ hg := 66, ptl := { x := 9, y := 0 } }])
      [(true, [{ hg := 67, ptl := { x := 18, y := 0 } }])] rfl (by decide) (Or.inl rfl)
    exact Prod.ext (h.2.2 (by decide)) h.1
  · have h := (C9_DrvTextOut_no_cell_write freshPDEV
      { pgp := none
        batches := [(true, [{ hg := 65, ptl := { x := 0, y := 0 } }]),
                    (true, [])] }).2.2.2.2.2.1 rfl
      [(true, [{ hg := 65, ptl := { x := 0, y := 0 } }])] (true, []) [] rfl (by decide)
      (Or.inr rfl)
    cases hr : (DrvTextOut freshPDEV
      { pgp := none
        batches := [(true, [{ hg := 65, ptl := { x := 0, y := 0 } }]),
                    (true, [])] }).2.1 with
    | false => rfl
    | true => exact absurd (h.2.1 hr) (by decide)

/-- C10. `DrvMovePointer(x, y)` with `x >= 0` and `DrvSetPointerShape` with a
mask make the cursor visible at `(x, y)`; `DrvMovePointer` with `x < 0` and
`DrvSetPointerShape` without a mask hide the cursor and keep its stored
position. In every case the cell grid is unchanged and the device state on
return is the output of `TextRefreshScreen` for the new cursor state, so after
a hide the 4000 bytes of the frame buffer equal the memory image of the grid.
`DrvSetPointerShape` always returns `SPS_ACCEPT_NOEXCLUDE`. -/
theorem C10_pointer_requests (pdev : PDEV) (x y : Int) :
    (0 ≤ x → (DrvMovePointer pdev x y).cur = { Visible := true, x := x, y := y }) ∧
    (x < 0 → (DrvMovePointer pdev x y).cur =
      { Visible := false, x := pdev.cur.x, y := pdev.cur.y }) ∧
    (DrvMovePointer pdev x y).charShadow = pdev.charShadow ∧
    DrvMovePointer pdev x y =
      TextRefreshScreen { pdev with cur := (DrvMovePointer pdev x y).cur } ∧
    (x < 0 → ∀ k : Int, 0 ≤ k → k < 4000 →
      (DrvMovePointer pdev x y).FrameBuffer k = charShadowByte pdev.charShadow k) ∧
    (DrvSetPointerShape pdev true x y).1.cur = { Visible := true, x := x, y := y } ∧
    (DrvSetPointerShape pdev false x y).1.cur =
      { Visible := false, x := pdev.cur.x, y := pdev.cur.y } ∧
    (∀ psoMask : Bool,
      (DrvSetPointerShape pdev psoMask x y).1.charShadow = pdev.charShadow ∧
      (DrvSetPointerShape pdev psoMask x y).1 =
        TextRefreshScreen { pdev with cur := (DrvSetPointerShape pdev psoMask x y).1.cur } ∧
      (DrvSetPointerShape pdev psoMask x y).2 = SPS_ACCEPT_NOEXCLUDE) ∧
    (∀ k : Int, 0 ≤ k → k < 4000 →
      (DrvSetPointerShape pdev false x y).1.FrameBuffer k = charShadowByte pdev.charShadow k) := by
  refine ⟨?_, ?_, ?_, ?_, ?_, ?_, ?_, ?_, ?_⟩
  · intro hx
    unfold DrvMovePointer
    rw [TextRefreshScreen_cur]
    simp only [ge_iff_le, hx, if_true, CURSOR_SetVisible, CURSOR_SetPosition]
  · intro hx
    unfold DrvMovePointer
    rw [TextRefreshScreen_cur]
    simp only [ge_iff_le, not_le.mpr hx, if_false, CURSOR_SetVisible]
  · unfold DrvMovePointer
    rw [TextRefreshScreen_charShadow]
  · unfold DrvMovePointer
    rw [TextRefreshScreen_cur]
  · intro hx k hk0 hk1
    unfold DrvMovePointer
    rw [TextRefreshScreen_FrameBuffer, if_neg, if_pos ⟨hk0, hk1⟩]
    simp only [ge_iff_le, not_le.mpr hx, if_false, CURSOR_SetVisible, Bool.false_eq_true,
      false_and, not_false_eq_true]
  · unfold DrvSetPointerShape
    rw [TextRefreshScreen_cur]
    simp only [if_true, CURSOR_SetVisible, CURSOR_SetPosition]
  · unfold DrvSetPointerShape
    rw [TextRefreshScreen_cur]
    simp only [Bool.false_eq_true, if_false, CURSOR_SetVisible]
  · intro psoMask
    refine ⟨?_, ?_, rfl⟩
    · unfold DrvSetPointerShape
      rw [TextRefreshScreen_charShadow]
    · unfold DrvSetPointerShape
      rw [TextRefreshScreen_cur]
  · intro k hk0 hk1
    unfold DrvSetPointerShape
    rw [TextRefreshScreen_FrameBuffer, if_neg, if_pos ⟨hk0, hk1⟩]
    simp only [Bool.false_eq_true, if_false, CURSOR_SetVisible, false_and, not_false_eq_true]

/-- Witness of C10: after a show at `(360, 200)` a move with `x = -1` hides the
cursor, keeps the position `(360, 200)` and leaves the character byte of cell
`(40, 12)` equal to the one of the grid, while the show had put `'@'` there. -/
theorem C10_pointer_requests_witness :
    (DrvMovePointer freshPDEV 360 200).cur = { Visible := true, x := 360, y := 200 } ∧
    (DrvMovePointer freshPDEV 360 200).FrameBuffer 2000 = 0x40 ∧
    (DrvMovePointer (DrvMovePointer freshPDEV 360 200) (-1) 0).cur =
      { Visible := false, x := 360, y := 200 } ∧
    (DrvMovePointer (DrvMovePointer freshPDEV 360 200) (-1) 0).FrameBuffer 2000 = 0 := by
  have hshow := C10_pointer_requests freshPDEV 360 200
  have hhide := C10_pointer_requests (DrvMovePointer freshPDEV 360 200) (-1) 0
  have hcur := hshow.1 (by decide)
  refine ⟨hcur, ?_, ?_, ?_⟩
  · unfold DrvMovePointer
    rw [TextRefreshScreen_FrameBuffer, if_pos]
    exact ⟨rfl, by decide⟩
  · rw [hhide.2.1 (by decide), hcur]
  · rw [hhide.2.2.2.2.1 (by decide) 2000 (by decide) (by decide), hshow.2.2.1]
    rw [show (2000 : Int) = 2 * ((((12 : Fin REAL_SCREEN_HEIGHT) : Nat) : Int) * 80 +
      (((40 : Fin REAL_SCREEN_WIDTH) : Nat) : Int)) by decide, charShadowByte_Char]
    rfl

/-- C5. For every fake pixel with `0 <= fakeX < 720` and `0 <= fakeY < 400` the
column `(fakeX * 80) / 720` and the row `(fakeY * 25) / 400` computed by the
driver (truncating division) satisfy `0 <= col < 80` and `0 <= row < 25`: the
bounds test of `DrvBitBlt` holds, and a solid fill step for that pixel does
write the cell at that row and column. -/
theorem C5_pixelToCell_in_grid (fakeX fakeY : Int)
    (hx : 0 ≤ fakeX ∧ fakeX < 720) (hy : 0 ≤ fakeY ∧ fakeY < 400) :
    scaleX fakeX = Int.tdiv (fakeX * 80) 720 ∧ scaleY fakeY = Int.tdiv (fakeY * 25) 400 ∧
    0 ≤ scaleX fakeX ∧ scaleX fakeX < 80 ∧ 0 ≤ scaleY fakeY ∧ scaleY fakeY < 25 ∧
    inGrid (scaleX fakeX) (scaleY fakeY) ∧
    ∀ (g : Grid) (b : BRUSHOBJ) (row : Fin REAL_SCREEN_HEIGHT) (col : Fin REAL_SCREEN_WIDTH),
      (col : Int) = scaleX fakeX → (row : Int) = scaleY fakeY →
      ∃ g', blitPixel none none (some b) (ROP3_TO_ROP4 PATCOPY) fakeX fakeY g = some g' ∧
        g' row col = fillCell b.iSolidColor := by
  have h1 : scaleX fakeX = Int.tdiv (fakeX * 80) 720 := by
    unfold scaleX LONG_mul LONG_div
    simp only [FAKE_SCREEN_WIDTH, REAL_SCREEN_WIDTH, CHAR_WIDTH, Nat.cast_ofNat, Nat.reduceMul]
    rw [LONG_wrap_eq_self _ (by omega) (by omega)]
  have h2 : scaleY fakeY = Int.tdiv (fakeY * 25) 400 := by
    unfold scaleY LONG_mul LONG_div
    simp only [FAKE_SCREEN_HEIGHT, REAL_SCREEN_HEIGHT, CHAR_HEIGHT, Nat.cast_ofNat,
      Nat.reduceMul]
    rw [LONG_wrap_eq_self _ (by omega) (by omega)]
  have h3 := scaleX_eq_div fakeX hx.1 (by omega)
  have h4 := scaleY_eq_div fakeY hy.1 (by omega)
  have h5 : 0 ≤ scaleX fakeX ∧ scaleX fakeX < 80 := by rw [h3]; omega
  have h6 : 0 ≤ scaleY fakeY ∧ scaleY fakeY < 25 := by rw [h4]; omega
  refine ⟨h1, h2, h5.1, h5.2, h6.1, h6.2, ?_, ?_⟩
  · unfold inGrid
    simp only [REAL_SCREEN_WIDTH, REAL_SCREEN_HEIGHT, Nat.cast_ofNat]
    omega
  · intro g b row col hcol hrow
    obtain ⟨g', hg', hcells⟩ := blitPixel_PATCOPY none none b fakeX fakeY g
    exact ⟨g', hg', (hcells row col).1 ⟨by simpa using hcol.symm, by simpa using hrow.symm⟩⟩

/-- Witness of C5 at the last pixel of the screen, `(719, 399)`. -/
theorem C5_pixelToCell_in_grid_witness :
    scaleX 719 = 79 ∧ scaleY 399 = 24 ∧ inGrid (scaleX 719) (scaleY 399) := by
  have h := C5_pixelToCell_in_grid 719 399 (by decide) (by decide)
  exact ⟨by decide, by decide, h.2.2.2.2.2.2.1⟩

/-! ## Source-less operations and the constant scaling -/

theorem blitPixel_no_source (psoSrc : Option SURFOBJ) (pptlSrc : Option POINTL)
    (pbo : Option BRUSHOBJ) (rop4 : Nat) (fakeX fakeY : Int) (g : Grid)
    (hrop : rop4 ≠ ROP3_TO_ROP4 PATCOPY) (hsrc : psoSrc = none ∨ pptlSrc = none) :
    blitPixel psoSrc pptlSrc pbo rop4 fakeX fakeY g = some g := by
  unfold blitPixel
  by_cases h : inGrid (scaleX fakeX) (scaleY fakeY)
  · simp only [h, dite_true, if_neg hrop]
    by_cases hs : rop4 = ROP3_TO_ROP4 SRCCOPY
    · rw [if_pos hs]
    · rw [if_neg hs]
      rcases hsrc with hso | hptl
      · subst hso
        cases pptlSrc <;> rfl
      · subst hptl
        rfl
  · simp only [h, dite_false]

theorem blitCells_no_source (psoSrc : Option SURFOBJ) (pptlSrc : Option POINTL)
    (pbo : Option BRUSHOBJ) (rop4 : Nat) (prclTrg : RECTL) (g : Grid)
    (hrop : rop4 ≠ ROP3_TO_ROP4 PATCOPY) (hsrc : psoSrc = none ∨ pptlSrc = none) :
    blitCells psoSrc pptlSrc pbo rop4 prclTrg g = some g := by
  unfold blitCells
  apply foldlM_skip
  intro g fakeX
  unfold blitColumn
  apply foldlM_skip
  intro g fakeY
  exact blitPixel_no_source psoSrc pptlSrc pbo rop4 fakeX fakeY g hrop hsrc

/-- C12. A `DrvBitBlt` call on the device surface whose `rop4` is not
`ROP3_TO_ROP4(PATCOPY)` and for which the source surface or the source origin
is absent skips every pixel: for every target rectangle it returns `TRUE`,
the cell grid is unchanged and the device state is the one `TextRefreshScreen`
produces from the state before the call. -/
theorem C12_no_source_is_noop (pdev : PDEV) (psoTrg : SURFOBJ) (psoSrc : Option SURFOBJ)
    (prclTrg : RECTL) (pptlSrc : Option POINTL) (pbo : Option BRUSHOBJ) (rop4 : Nat)
    (hdev : psoTrg.iType = STYPE_DEVICE) (hrop : rop4 ≠ ROP3_TO_ROP4 PATCOPY)
    (hsrc : psoSrc = none ∨ pptlSrc = none) :
    DrvBitBlt pdev psoTrg psoSrc prclTrg pptlSrc pbo rop4 = some (TextRefreshScreen pdev, true) ∧
    (TextRefreshScreen pdev).charShadow = pdev.charShadow ∧
    ∀ (fakeX fakeY : Int) (g : Grid),
      blitPixel (psoSrc.map (fun so => if so.iType = STYPE_DEVICE then pdev.psoShadow else so))
        pptlSrc pbo rop4 fakeX fakeY g = some g := by
  have hsrc' : psoSrc.map (fun so => if so.iType = STYPE_DEVICE then pdev.psoShadow else so)
      = none ∨ pptlSrc = none := by
    rcases hsrc with h | h
    · left; rw [h]; rfl
    · right; exact h
  refine ⟨?_, TextRefreshScreen_charShadow pdev, fun fakeX fakeY g =>
    blitPixel_no_source _ _ _ _ _ _ _ hrop hsrc'⟩
  rw [DrvBitBlt_device _ _ _ _ _ _ _ hdev, blitCells_no_source _ _ _ _ _ _ hrop hsrc']
  rfl

/-- Witness of C12: a blit on the device surface with the unsupported `rop4`
`0x6666`, without source, over a rectangle reaching outside the screen. -/
theorem C12_no_source_is_noop_witness :
    DrvBitBlt freshPDEV deviceSurface none { left := -5, top := -5, right := 800, bottom := 500 }
      none none 0x6666 = some (TextRefreshScreen freshPDEV, true) ∧
    (TextRefreshScreen freshPDEV).charShadow = freshPDEV.charShadow :=
  have h := C12_no_source_is_noop freshPDEV deviceSurface none
    { left := -5, top := -5, right := 800, bottom := 500 } none none 0x6666 rfl
    (by decide) (Or.inl rfl)
  ⟨h.1, h.2.1⟩

/-- C13. For `fakeX >= 0` and `fakeY >= 0` whose products `fakeX * 80` and
`fakeY * 25` fit a 32-bit signed `LONG`, the driver's column is `fakeX / 9`
and its row is `fakeY / 16` (truncating division); hence a cell `(col, row)`
is the image of exactly the pixels of the block
`[9*col, 9*col+9) x [16*row, 16*row+16)`, and every cell of the 80 x 25 grid
is the image of a pixel of `[0,720) x [0,400)`. -/
theorem C13_constant_scaling (fakeX fakeY : Int) (hx : 0 ≤ fakeX) (hy : 0 ≤ fakeY)
    (hox : fakeX * 80 < 2147483648) (hoy : fakeY * 25 < 2147483648) :
    scaleX fakeX = Int.tdiv fakeX 9 ∧ scaleY fakeY = Int.tdiv fakeY 16 ∧
    Int.tdiv (fakeX * 80) 720 = Int.tdiv fakeX 9 ∧
    Int.tdiv (fakeY * 25) 400 = Int.tdiv fakeY 16 ∧
    (∀ col : Fin REAL_SCREEN_WIDTH, scaleX fakeX = ((col : Nat) : Int) ↔
      9 * ((col : Nat) : Int) ≤ fakeX ∧ fakeX < 9 * ((col : Nat) : Int) + 9) ∧
    (∀ row : Fin REAL_SCREEN_HEIGHT, scaleY fakeY = ((row : Nat) : Int) ↔
      16 * ((row : Nat) : Int) ≤ fakeY ∧ fakeY < 16 * ((row : Nat) : Int) + 16) ∧
    (∀ (row : Fin REAL_SCREEN_HEIGHT) (col : Fin REAL_SCREEN_WIDTH),
      ∃ fx fy : Int, 0 ≤ fx ∧ fx < 720 ∧ 0 ≤ fy ∧ fy < 400 ∧
        scaleX fx = ((col : Nat) : Int) ∧ scaleY fy = ((row : Nat) : Int)) := by
  have h1 := scaleX_eq_div fakeX hx (by omega)
  have h2 := scaleY_eq_div fakeY hy (by omega)
  have t1 : Int.tdiv fakeX 9 = fakeX / 9 := Int.tdiv_eq_ediv hx (by omega)
  have t2 : Int.tdiv fakeY 16 = fakeY / 16 := Int.tdiv_eq_ediv hy (by omega)
  refine ⟨by rw [h1, t1], by rw [h2, t2], ?_, ?_, ?_, ?_, ?_⟩
  · rw [← scaleX_eq_tdiv fakeX hx (by omega), h1, t1]
  · rw [← scaleY_eq_tdiv fakeY hy (by omega), h2, t2]
  · intro col
    rw [h1]
    omega
  · intro row
    rw [h2]
    omega
  · intro row col
    have hrow : (row : Nat) < 25 := row.isLt
    have hcol : (col : Nat) < 80 := col.isLt
    refine ⟨9 * ((col : Nat) : Int), 16 * ((row : Nat) : Int), by omega, by omega, by omega,
      by omega, ?_, ?_⟩
    · rw [scaleX_eq_div _ (by omega) (by omega)]
      omega
    · rw [scaleY_eq_div _ (by omega) (by omega)]
      omega

/-- Witness of C13 at the greatest coordinates whose products do not
overflow, `fakeX = 26843545` and `fakeY = 85899345`. -/
theorem C13_constant_scaling_witness :
    scaleX 26843545 = Int.tdiv 26843545 9 ∧ scaleY 85899345 = Int.tdiv 85899345 16 :=
  have h := C13_constant_scaling 26843545 85899345 (by decide) (by decide) (by decide)
    (by decide)
  ⟨h.1, h.2.1⟩

/-! ## Sampled blit: the last pixel visited in a cell wins -/

theorem DrvGetModes_size_query (D : Nat) (hDriver : VideoServices) (cjSize : Nat)
    (h1 : hDriver.retNumModes = ERROR_SUCCESS) (h2 : hDriver.allocOk = true)
    (h3 : hDriver.retModes = ERROR_SUCCESS) :
    DrvGetModes D hDriver cjSize false =
      some (DWORD_wrap ((countSuitable hDriver.modes + sizeof_DMEXTRA) * D), []) := by
  unfold DrvGetModes
  simp [h1, h2, h3]

/-- C14, the code at the failing input. With one text mode the size query
(`pdm` null) returns `(1 + 4) * 220 = 1100`, while the call that follows with
a buffer of that size writes one record and returns `220 + 4 = 224`; with one
graphics mode, hence no suitable mode, the size query returns
`(0 + 4) * 220 = 880`, not 0. Line 229 computes
`(SuitableModes + sizeof(DMEXTRA)) * sizeof(DEVMODEW)`. -/
theorem C14_size_query_miscounts :
    countSuitable oneTextMode.modes = 1 ∧
    DrvGetModes sizeof_DEVMODEW oneTextMode 0 false = some (1100, []) ∧
    DrvGetModes sizeof_DEVMODEW oneTextMode 1100 true =
      some (224, [{ dmSize := 220, dmDriverExtra := 4, dmBitsPerPel := 1, dmPelsWidth := 720,
                    dmPelsHeight := 400, dmDisplayFrequency := 1, ModeIndex := 1 }]) ∧
    1 * (sizeof_DEVMODEW + sizeof_DMEXTRA) = 224 ∧
    countSuitable oneGraphicsMode.modes = 0 ∧
    DrvGetModes sizeof_DEVMODEW oneGraphicsMode 0 false = some (880, []) ∧
    DrvGetModes sizeof_DEVMODEW oneGraphicsMode 880 true = some (0, []) := by
  refine ⟨by decide, by decide, by decide, by decide, by decide, by decide, by decide⟩

end TextDdi
